import Mathlib

/-!
Shallow embedding of `src/fast_server.py` (a minimal FastAPI image-ingest echo
service) and proofs about its observable contract.

Modelling conventions:
* Python `str` values are Lean `String`s; positional string manipulation is done
  on their underlying `List Char` (Python strings are sequences of code points).
* Python `bytes` are `List Nat` (each entry < 256).
* Fallible Python operations (`base64.b64decode`, `UploadFile.read`) are
  `Except Unit _`; a raised exception is `.error ()`.
* The wall clock (`datetime.now(timezone.utc)`) is passed in explicitly as a
  `DateTime` value.
* Scheduled background work (`BackgroundTasks.add_task` / `asyncio.create_task`)
  is recorded as a list of `BgTask` values instead of being executed inline.
-/

namespace FastServer

/-- JSON values as produced by Python `json.loads` / consumed by `send_json`.
Numbers are modelled as integers (no claim exercises non-integer numbers).
An object is the association list of its (unique) keys. -/
inductive Json where
  | null
  | bool (b : Bool)
  | num (n : Int)
  | str (s : String)
  | arr (elems : List Json)
  | obj (fields : List (String × Json))

/-- Python truthiness (`if label:`) for the JSON-representable values that can
reach `make_control_command` and `save_image`. -/
def pyTruthy : Json → Bool
  | .null => false
  | .bool b => b
  | .num n => !(n == 0)
  | .str s => !(s == "")
  | .arr elems => !elems.isEmpty
  | .obj fields => !fields.isEmpty

/-- Embeds a Python `Optional[str]` into the dynamic value space. -/
def pyOptStr : Option String → Json
  | some s => Json.str s
  | none => Json.null

/-- The six-bit value of a standard base64 alphabet character
(`table_a2b_base64` in CPython's `binascii`); `none` for characters outside
the alphabet. -/
def b64table (c : Char) : Option Nat :=
  if 'A' ≤ c ∧ c ≤ 'Z' then some (c.toNat - 65)
  else if 'a' ≤ c ∧ c ≤ 'z' then some (c.toNat - 71)
  else if '0' ≤ c ∧ c ≤ '9' then some (c.toNat - 48 + 52)
  else if c = '+' then some 62
  else if c = '/' then some 63
  else none

/-- A character kept by the decoder: base64 alphabet or the pad character. -/
def isB64OrPad (c : Char) : Bool :=
  (b64table c).isSome || c == '='

/-- CPython `binascii.a2b_base64` with `strict_mode=False`, as called by
`base64.b64decode(s)` (no `validate`): characters outside the alphabet are
skipped; a pad ends decoding once a quad can be completed; a final partial
quad is an error. State: remaining input, `quadPos`, `leftchar`, `pads`,
accumulated output (reversed). -/
def a2b_loop : List Char → Nat → Nat → Nat → List Nat → Except Unit (List Nat)
  | [], quadPos, _, _, out =>
    if quadPos = 0 then .ok out.reverse else .error ()
  | c :: cs, quadPos, leftchar, pads, out =>
    if c = '=' then
      if 2 ≤ quadPos ∧ 4 ≤ quadPos + (pads + 1) then .ok out.reverse
      else a2b_loop cs quadPos leftchar (if 2 ≤ quadPos then pads + 1 else pads) out
    else
      match b64table c with
      | none => a2b_loop cs quadPos leftchar pads out
      | some v =>
        match quadPos with
        | 0 => a2b_loop cs 1 v 0 out
        | 1 => a2b_loop cs 2 (v % 16) 0 ((leftchar * 4 + v / 16) :: out)
        | 2 => a2b_loop cs 3 (v % 4) 0 ((leftchar * 16 + v / 4) :: out)
        | _ => a2b_loop cs 0 0 0 ((leftchar * 64 + v) :: out)

/-- `binascii.a2b_base64` (non-strict) on an ASCII character sequence. -/
def a2b_base64 (cs : List Char) : Except Unit (List Nat) :=
  a2b_loop cs 0 0 0 []

/-- `base64.b64decode(s)` for a `str` argument: the string is first encoded as
ASCII (a non-ASCII character raises `ValueError`), then fed to the non-strict
`a2b_base64`. -/
def b64decode (s : String) : Except Unit (List Nat) :=
  if s.data.all (fun c => c.toNat < 128) then a2b_base64 s.data
  else .error ()

/-- `img_str.startswith("data:")`, specialised to the fixed literal used by
the server. -/
def startsWithData : List Char → Bool
  | 'd' :: 'a' :: 't' :: 'a' :: ':' :: _ => true
  | _ => false

/-- Python `str.find` returning the lowest index of `c`, `none` when absent
(Python returns `-1`). -/
def py_find (c : Char) : List Char → Option Nat
  | [] => none
  | x :: xs => if x = c then some 0 else (py_find c xs).map (· + 1)

/-- The data-URI stripping performed identically in `upload_base64`
(lines 88-92) and in the WebSocket text branch (lines 163-166): when the
string starts with `data:` and contains a comma, drop everything up to and
including the first comma; otherwise leave the string unchanged. -/
def strip_chars (cs : List Char) : List Char :=
  if startsWithData cs then
    match py_find ',' cs with
    | some comma => cs.drop (comma + 1)
    | none => cs
  else cs

/-- String-level wrapper of `strip_chars`. -/
def strip_data_uri (s : String) : String :=
  String.mk (strip_chars s.data)

/-- A UTC instant as held by an aware `datetime` (`datetime.now(timezone.utc)`). -/
structure DateTime where
  year : Nat
  month : Nat
  day : Nat
  hour : Nat
  minute : Nat
  second : Nat
  microsecond : Nat

/-- The invariants Python's `datetime` guarantees for its fields. -/
def DateTime.Valid (dt : DateTime) : Prop :=
  1 ≤ dt.year ∧ dt.year ≤ 9999 ∧ 1 ≤ dt.month ∧ dt.month ≤ 12 ∧
  1 ≤ dt.day ∧ dt.day ≤ 31 ∧ dt.hour ≤ 23 ∧ dt.minute ≤ 59 ∧
  dt.second ≤ 59 ∧ dt.microsecond ≤ 999999

instance (dt : DateTime) : Decidable dt.Valid := by
  unfold DateTime.Valid; infer_instance

/-- The decimal digit character for `n % 10`. -/
def digitChar (n : Nat) : Char :=
  Char.ofNat (48 + n % 10)

/-- `%02d` (exact for arguments < 100, which the `DateTime` invariants give). -/
def pad2 (n : Nat) : List Char :=
  [digitChar (n / 10), digitChar n]

/-- `%04d` (exact for arguments < 10000). -/
def pad4 (n : Nat) : List Char :=
  [digitChar (n / 1000), digitChar (n / 100), digitChar (n / 10), digitChar n]

/-- `%06d` (exact for arguments < 1000000). -/
def pad6 (n : Nat) : List Char :=
  [digitChar (n / 100000), digitChar (n / 10000), digitChar (n / 1000),
   digitChar (n / 100), digitChar (n / 10), digitChar n]

/-- Character sequence of `datetime.isoformat()` for an aware UTC datetime:
`YYYY-MM-DDTHH:MM:SS[.ffffff]+00:00`, microseconds omitted exactly when zero. -/
def isoChars (dt : DateTime) : List Char :=
  pad4 dt.year ++ '-' :: pad2 dt.month ++ '-' :: pad2 dt.day ++
  'T' :: pad2 dt.hour ++ ':' :: pad2 dt.minute ++ ':' :: pad2 dt.second ++
  (if dt.microsecond == 0 then [] else '.' :: pad6 dt.microsecond) ++
  ['+', '0', '0', ':', '0', '0']

/-- `datetime.now(timezone.utc).isoformat()` with the instant made explicit. -/
def isoformat (dt : DateTime) : String :=
  String.mk (isoChars dt)

/-- `current_iso_timestamp` (fast_server.py line 30). -/
def current_iso_timestamp (dt : DateTime) : String :=
  isoformat dt

/-- Matches a character list against a pattern list where `D` stands for one
decimal digit and every other pattern character must occur literally
(spec-side checker used to state timestamp well-formedness). -/
def matchesShape : List Char → List Char → Bool
  | [], [] => true
  | p :: ps, c :: cs => (if p = 'D' then c.isDigit else p == c) && matchesShape ps cs
  | _, _ => false

/-- Spec-side: the string is a well-formed ISO-8601 UTC timestamp of the shape
emitted for UTC instants (`+00:00` offset, optional 6-digit fraction). -/
def isISO8601UTC (s : String) : Bool :=
  matchesShape "DDDD-DD-DDTDD:DD:DD+00:00".data s.data ||
  matchesShape "DDDD-DD-DDTDD:DD:DD.DDDDDD+00:00".data s.data

/-- `make_control_command` (fast_server.py lines 53-63). The Python parameter
is annotated `Optional[str]` but receives arbitrary JSON values on the
WebSocket path, so the model takes the dynamic value (absent = `Json.null`).
`cmd = {"action": "ACK"}`, then `labelReceived` is added when `label` is
truthy. -/
def make_control_command (label : Json) : List (String × Json) :=
  if pyTruthy label then
    [("action", Json.str "ACK"), ("labelReceived", label)]
  else
    [("action", Json.str "ACK")]

/-- `process_image_bytes` (fast_server.py lines 34-51): an explicit no-op. -/
def process_image_bytes (_image_bytes : List Nat) : Unit :=
  ()

/-- Process-wide configuration: the `STORE_IMAGES` module flag (line 19; the
source sets it to `False`, the model keeps it a parameter so both branches of
`save_image` can be stated). -/
structure Config where
  STORE_IMAGES : Bool

/-- The fixed storage directory `RECEIVED_IMAGES_DIR` (line 20), relative to
the module's parent directory. -/
def RECEIVED_IMAGES_DIR : String :=
  "received_images"

/-- A filesystem write performed by the persistence sink. -/
structure FsWrite where
  directory : String
  filename : String
  contents : List Nat

/-- `timestamp = datetime.now(timezone.utc).strftime("%Y%m%dT%H%M%SZ")`
(line 68). -/
def strftime_basic (dt : DateTime) : List Char :=
  pad4 dt.year ++ pad2 dt.month ++ pad2 dt.day ++
  'T' :: pad2 dt.hour ++ pad2 dt.minute ++ pad2 dt.second ++ ['Z']

/-- `suffix = f"_{label}" if label else ""` (line 69). -/
def label_suffix : Option String → List Char
  | some l => if l = "" then [] else '_' :: l.data
  | none => []

/-- `save_image` (fast_server.py lines 65-73): a no-op unless `STORE_IMAGES`;
otherwise one write of the raw bytes to `{timestamp}{suffix}.jpg` under
`RECEIVED_IMAGES_DIR`. The write itself is fire-and-forget; no value or error
is returned to any caller. -/
def save_image (cfg : Config) (dt : DateTime) (image_bytes : List Nat)
    (label : Option String := none) : List FsWrite :=
  if !cfg.STORE_IMAGES then []
  else
    [{ directory := RECEIVED_IMAGES_DIR,
       filename := String.mk (strftime_basic dt ++ label_suffix label ++ ".jpg".data),
       contents := image_bytes }]

/-- A background task scheduled by a handler (`BackgroundTasks.add_task` /
`asyncio.create_task`); records the deferred `save_image` call's arguments.
The label is the dynamic value actually passed at the call site. -/
inductive BgTask where
  | saveTask (image_bytes : List Nat) (label : Json)

/-- The pydantic request model `Base64Upload` (lines 25-27). -/
structure Base64Upload where
  label : Option String := none
  image : String

/-- A `JSONResponse`: HTTP status code plus JSON body. -/
structure HttpResponse where
  status_code : Nat
  content : Json

/-- Outcome of an HTTP handler: the response sent plus the background tasks
scheduled for after the response. -/
structure HandlerResult where
  response : HttpResponse
  background : List BgTask

/-- `upload_base64` (fast_server.py lines 77-106): strip a `data:` URI header,
base64-decode, 400 on decode failure; otherwise schedule the save, run the
no-op hook and answer 200 with `{command, commandSentAt}`. -/
def upload_base64 (payload : Base64Upload) (dt : DateTime) : HandlerResult :=
  let img_str := strip_data_uri payload.image
  match b64decode img_str with
  | .error _ =>
    { response := { status_code := 400,
                    content := Json.obj [("error", Json.str "Invalid base64 image")] },
      background := [] }
  | .ok image_bytes =>
    let _ := process_image_bytes image_bytes
    let cmd := make_control_command (pyOptStr payload.label)
    { response := { status_code := 200,
                    content := Json.obj [("command", Json.obj cmd),
                                         ("commandSentAt", Json.str (current_iso_timestamp dt))] },
      background := [BgTask.saveTask image_bytes (pyOptStr payload.label)] }

/-- Spec-side comparison copy of `upload_base64` with the processing-hook
invocation removed (used only to state that the hook changes nothing). -/
def upload_base64_nohook (payload : Base64Upload) (dt : DateTime) : HandlerResult :=
  let img_str := strip_data_uri payload.image
  match b64decode img_str with
  | .error _ =>
    { response := { status_code := 400,
                    content := Json.obj [("error", Json.str "Invalid base64 image")] },
      background := [] }
  | .ok image_bytes =>
    let cmd := make_control_command (pyOptStr payload.label)
    { response := { status_code := 200,
                    content := Json.obj [("command", Json.obj cmd),
                                         ("commandSentAt", Json.str (current_iso_timestamp dt))] },
      background := [BgTask.saveTask image_bytes (pyOptStr payload.label)] }

/-- `upload_form` (fast_server.py lines 108-133): `read_result` is the outcome
of `await image.read()`; a read failure answers 500, success follows the same
tail as the JSON endpoint. -/
def upload_form (label : Option String) (read_result : Except Unit (List Nat))
    (dt : DateTime) : HandlerResult :=
  match read_result with
  | .error _ =>
    { response := { status_code := 500,
                    content := Json.obj [("error", Json.str "Failed to read uploaded file")] },
      background := [] }
  | .ok contents =>
    let _ := process_image_bytes contents
    let cmd := make_control_command (pyOptStr label)
    { response := { status_code := 200,
                    content := Json.obj [("command", Json.obj cmd),
                                         ("commandSentAt", Json.str (current_iso_timestamp dt))] },
      background := [BgTask.saveTask contents (pyOptStr label)] }

/-- Spec-side comparison copy of `upload_form` without the hook invocation. -/
def upload_form_nohook (label : Option String) (read_result : Except Unit (List Nat))
    (dt : DateTime) : HandlerResult :=
  match read_result with
  | .error _ =>
    { response := { status_code := 500,
                    content := Json.obj [("error", Json.str "Failed to read uploaded file")] },
      background := [] }
  | .ok contents =>
    let cmd := make_control_command (pyOptStr label)
    { response := { status_code := 200,
                    content := Json.obj [("command", Json.obj cmd),
                                         ("commandSentAt", Json.str (current_iso_timestamp dt))] },
      background := [BgTask.saveTask contents (pyOptStr label)] }

/-- One ASGI event received by the WebSocket loop (line 151). A text frame
carries the result of `json.loads` on its text (`none` = the parse raised);
a binary frame carries its raw bytes. `receiveNeither` is a
`websocket.receive` event with neither text nor bytes (ignored by the code). -/
inductive WsIncoming where
  | receiveText (parsed : Option Json)
  | receiveBytes (image_bytes : List Nat)
  | receiveNeither
  | disconnect

/-- The error frame `{"error": "Malformed JSON or base64 decode error"}`. -/
def errMalformed : Json :=
  Json.obj [("error", Json.str "Malformed JSON or base64 decode error")]

/-- The error frame for a non-string `image` field. -/
def errInvalidFormat : Json :=
  Json.obj [("error", Json.str "Invalid message format: \x27image\x27 must be base64 string")]

/-- The success frame `{"command": cmd, "commandSentAt": ts}` sent by the
WebSocket handler. -/
def wsAckFrame (label : Json) (dt : DateTime) : Json :=
  Json.obj [("command", Json.obj (make_control_command label)),
            ("commandSentAt", Json.str (current_iso_timestamp dt))]

/-- Result of handling one event: frames sent and tasks spawned, then either
keep looping or leave the loop (`websocket.disconnect`). -/
inductive WsStep where
  | next (outgoing : List Json) (tasks : List BgTask)
  | halt

/-- The WebSocket text-frame branch (fast_server.py lines 155-185).
`msg.get` on a non-object raises `AttributeError`, caught by the same
`except` as the JSON parse and the base64 decode. -/
def ws_handle_text (dt : DateTime) (parsed : Option Json) : WsStep :=
  match parsed with
  | none => .next [errMalformed] []
  | some msg =>
    match msg with
    | Json.obj fields =>
      let label := (fields.lookup "label").getD Json.null
      match fields.lookup "image" with
      | some (Json.str s) =>
        match b64decode (strip_data_uri s) with
        | .error _ => .next [errMalformed] []
        | .ok image_bytes =>
          let _ := process_image_bytes image_bytes
          .next [wsAckFrame label dt] [BgTask.saveTask image_bytes label]
      | _ => .next [errInvalidFormat] []
    | _ => .next [errMalformed] []

/-- One iteration of the WebSocket receive loop (fast_server.py lines 149-202). -/
def ws_handle_event (dt : DateTime) : WsIncoming → WsStep
  | .receiveText parsed => ws_handle_text dt parsed
  | .receiveBytes image_bytes =>
    let _ := process_image_bytes image_bytes
    .next [wsAckFrame Json.null dt] [BgTask.saveTask image_bytes Json.null]
  | .receiveNeither => .next [] []
  | .disconnect => .halt

/-- The whole receive loop over a sequence of timestamped events: frames sent
and tasks spawned, in order, until a disconnect ends the loop. -/
def ws_loop : List (DateTime × WsIncoming) → List Json × List BgTask
  | [] => ([], [])
  | (dt, ev) :: rest =>
    match ws_handle_event dt ev with
    | .halt => ([], [])
    | .next outgoing tasks =>
      let r := ws_loop rest
      (outgoing ++ r.1, tasks ++ r.2)

/-! ## Helper lemmas -/

@[simp] theorem data_mk (cs : List Char) : (String.mk cs).data = cs := rfl

@[simp] theorem digitChar_isDigit (n : Nat) : (digitChar n).isDigit = true := by
  have h : n % 10 < 10 := Nat.mod_lt _ (by omega)
  unfold digitChar
  generalize n % 10 = k at h ⊢
  interval_cases k <;> decide

theorem lookup_action_ack (label : Json) :
    (make_control_command label).lookup "action" = some (Json.str "ACK") := by
  unfold make_control_command
  cases hp : pyTruthy label <;> simp [List.lookup]

theorem isoformat_wellformed (dt : DateTime) : isISO8601UTC (isoformat dt) = true := by
  unfold isISO8601UTC isoformat isoChars pad4 pad2 pad6
  by_cases h : dt.microsecond == 0 <;>
    simp [h, matchesShape]

/-! ## Claim theorems -/

/-- Claim C1, counterexample: the JSON endpoint called with the non-null label
`""` produces an acknowledgment command in which `labelReceived` is entirely
absent, refuting "present if and only if the supplied label is non-null". -/
theorem labelReceived_counterexample :
    (upload_base64 { label := some "", image := "YWJj" } ⟨2025, 1, 2, 3, 4, 5, 0⟩).response.content =
      Json.obj [("command", Json.obj [("action", Json.str "ACK")]),
                ("commandSentAt", Json.str "2025-01-02T03:04:05+00:00")] ∧
    (some "" : Option String) ≠ none := by
  exact ⟨rfl, by simp⟩

/-- Claim C1 (amended): in the acknowledgment command, `labelReceived` is
present if and only if the supplied label is non-null AND non-empty (Python
truthiness of `if label:`); when present its value is exactly the supplied
label; when the label is null or empty the field is entirely absent. -/
theorem labelReceived_presence (label : Option String) :
    (((make_control_command (pyOptStr label)).lookup "labelReceived").isSome
        ↔ label ≠ none ∧ label ≠ some "") ∧
    (∀ l : String, label = some l → l ≠ "" →
      (make_control_command (pyOptStr label)).lookup "labelReceived" = some (Json.str l)) := by
  cases label with
  | none => simp [make_control_command, pyOptStr, pyTruthy, List.lookup]
  | some l =>
    by_cases hl : l = ""
    · subst hl
      simp [make_control_command, pyOptStr, pyTruthy, List.lookup]
    · simp [make_control_command, pyOptStr, pyTruthy, hl, List.lookup]

/-- Claim C1 witness: a concrete non-empty label is echoed back verbatim. -/
theorem labelReceived_presence_witness :
    (make_control_command (pyOptStr (some "cam1"))).lookup "labelReceived" =
      some (Json.str "cam1") :=
  (labelReceived_presence (some "cam1")).2 "cam1" rfl (by simp)

/-- Claim C2: a JSON POST whose image string fails base64 decoding is answered
with status 400 and body `{"error": "Invalid base64 image"}`, and no
background task is scheduled, so `save_image` is never invoked regardless of
the storage flag. -/
theorem upload_base64_invalid_rejected (payload : Base64Upload) (dt : DateTime)
    (h : b64decode (strip_data_uri payload.image) = .error ()) :
    upload_base64 payload dt =
      { response := { status_code := 400,
                      content := Json.obj [("error", Json.str "Invalid base64 image")] },
        background := [] } := by
  simp only [upload_base64, h]

/-- Claim C2 witness: the malformed image string `not-base64-@@@`. -/
theorem upload_base64_invalid_rejected_witness :
    upload_base64 { label := none, image := "not-base64-@@@" } ⟨2025, 1, 2, 3, 4, 5, 0⟩ =
      { response := { status_code := 400,
                      content := Json.obj [("error", Json.str "Invalid base64 image")] },
        background := [] } :=
  upload_base64_invalid_rejected _ _ rfl

/-- Claim C8: the processing hook does nothing on every input, and the HTTP
handlers produce exactly the result they would produce with the hook call
deleted (`upload_base64_nohook` / `upload_form_nohook` are copies of the
handlers without the hook invocation). -/
theorem process_hook_is_noop :
    (∀ image_bytes : List Nat, process_image_bytes image_bytes = ()) ∧
    (∀ payload dt, upload_base64 payload dt = upload_base64_nohook payload dt) ∧
    (∀ label read_result dt,
      upload_form label read_result dt = upload_form_nohook label read_result dt) :=
  ⟨fun _ => rfl, fun _ _ => rfl, fun _ _ _ => rfl⟩

/-- Claim C3: whenever the image payload decodes to a non-empty byte sequence,
both HTTP endpoints answer 200 with a `{command, commandSentAt}` body whose
command has `action = "ACK"` and whose timestamp is a well-formed ISO-8601 UTC
string. -/
theorem upload_endpoints_ack (payload : Base64Upload) (label : Option String)
    (image_bytes contents : List Nat) (dt : DateTime)
    (_hdt : dt.Valid)
    (hdec : b64decode (strip_data_uri payload.image) = .ok image_bytes)
    (_hne : image_bytes ≠ [])
    (_hcontents : contents ≠ []) :
    ((upload_base64 payload dt).response.status_code = 200 ∧
      ∃ cmd ts, (upload_base64 payload dt).response.content =
          Json.obj [("command", Json.obj cmd), ("commandSentAt", Json.str ts)] ∧
        cmd.lookup "action" = some (Json.str "ACK") ∧ isISO8601UTC ts = true) ∧
    ((upload_form label (.ok contents) dt).response.status_code = 200 ∧
      ∃ cmd ts, (upload_form label (.ok contents) dt).response.content =
          Json.obj [("command", Json.obj cmd), ("commandSentAt", Json.str ts)] ∧
        cmd.lookup "action" = some (Json.str "ACK") ∧ isISO8601UTC ts = true) := by
  constructor
  · constructor
    · simp only [upload_base64, hdec]
    · exact ⟨make_control_command (pyOptStr payload.label), current_iso_timestamp dt,
        by simp only [upload_base64, hdec], lookup_action_ack _, isoformat_wellformed dt⟩
  · constructor
    · rfl
    · exact ⟨make_control_command (pyOptStr label), current_iso_timestamp dt,
        rfl, lookup_action_ack _, isoformat_wellformed dt⟩

/-- Claim C3 witness: a concrete valid upload on both endpoints. -/
theorem upload_endpoints_ack_witness :
    (upload_base64 { label := some "a", image := "YWJj" } ⟨2025, 1, 2, 3, 4, 5, 0⟩).response.status_code = 200 ∧
    (upload_form (some "a") (.ok [1]) ⟨2025, 1, 2, 3, 4, 5, 0⟩).response.status_code = 200 := by
  have h := upload_endpoints_ack { label := some "a", image := "YWJj" } (some "a")
    [97, 98, 99] [1] ⟨2025, 1, 2, 3, 4, 5, 0⟩ (by decide) rfl (by simp) (by simp)
  exact ⟨h.1.1, h.2.1⟩

/-- The characters of the literal `data:image/jpeg;base64,` named in C4. -/
def jpegPrefixChars : List Char :=
  ['d', 'a', 't', 'a', ':', 'i', 'm', 'a', 'g', 'e', '/', 'j', 'p', 'e', 'g', ';',
   'b', 'a', 's', 'e', '6', '4', ',']

theorem strip_chars_jpeg (P : List Char) :
    strip_chars (jpegPrefixChars ++ P) = P := rfl

theorem startsWithData_of_payload (P : List Char)
    (h : ∀ c ∈ P, isB64OrPad c = true) : startsWithData P = false := by
  unfold startsWithData
  split
  · next t =>
    exact absurd (h ':' (by simp)) (by decide)
  · rfl

theorem strip_chars_payload (P : List Char)
    (h : ∀ c ∈ P, isB64OrPad c = true) : strip_chars P = P := by
  unfold strip_chars
  rw [startsWithData_of_payload P h]
  simp

theorem ws_handle_text_obj (dt : DateTime) (fields : List (String × Json)) (s : String)
    (himg : fields.lookup "image" = some (Json.str s)) :
    ws_handle_text dt (some (Json.obj fields)) =
      match b64decode (strip_data_uri s) with
      | .error _ => .next [errMalformed] []
      | .ok image_bytes =>
        .next [wsAckFrame ((fields.lookup "label").getD Json.null) dt]
              [BgTask.saveTask image_bytes ((fields.lookup "label").getD Json.null)] := by
  simp only [ws_handle_text, himg]

/-- Claim C4: for a base64 payload `P` (characters in the base64 alphabet or
pad), the image string `data:image/jpeg;base64,P` and the bare string `P`
are stripped to the same characters, decode to identical byte sequences, and
produce identical results on the JSON endpoint and on the WebSocket text
path: the data-URI header up to and including its comma is a pure syntactic
strip. -/
theorem data_uri_strip_pure (P : List Char) (label : Option String) (dt : DateTime)
    (h : ∀ c ∈ P, isB64OrPad c = true) :
    strip_chars (jpegPrefixChars ++ P) = strip_chars P ∧
    b64decode (strip_data_uri (String.mk (jpegPrefixChars ++ P))) =
      b64decode (strip_data_uri (String.mk P)) ∧
    upload_base64 { label := label, image := String.mk (jpegPrefixChars ++ P) } dt =
      upload_base64 { label := label, image := String.mk P } dt ∧
    ws_handle_text dt (some (Json.obj
        [("label", pyOptStr label), ("image", Json.str (String.mk (jpegPrefixChars ++ P)))])) =
      ws_handle_text dt (some (Json.obj
        [("label", pyOptStr label), ("image", Json.str (String.mk P))])) := by
  have hstrip : strip_chars (jpegPrefixChars ++ P) = strip_chars P := by
    rw [strip_chars_jpeg, strip_chars_payload P h]
  have hdata : strip_data_uri (String.mk (jpegPrefixChars ++ P)) =
      strip_data_uri (String.mk P) := by
    unfold strip_data_uri
    rw [data_mk, data_mk, hstrip]
  refine ⟨hstrip, by rw [hdata], ?_, ?_⟩
  · unfold upload_base64
    rw [hdata]
  · rw [ws_handle_text_obj dt
          [("label", pyOptStr label), ("image", Json.str (String.mk (jpegPrefixChars ++ P)))]
          (String.mk (jpegPrefixChars ++ P)) rfl,
        ws_handle_text_obj dt
          [("label", pyOptStr label), ("image", Json.str (String.mk P))]
          (String.mk P) rfl,
        hdata]
    rfl

/-- Claim C4 witness: the payload `YWJj` with label `a`. -/
theorem data_uri_strip_pure_witness :
    upload_base64 { label := some "a", image := String.mk (jpegPrefixChars ++ "YWJj".data) }
        ⟨2025, 1, 2, 3, 4, 5, 0⟩ =
      upload_base64 { label := some "a", image := "YWJj" } ⟨2025, 1, 2, 3, 4, 5, 0⟩ :=
  (data_uri_strip_pure "YWJj".data (some "a") ⟨2025, 1, 2, 3, 4, 5, 0⟩ (by decide)).2.2.1

/-- Claim C10: when the image string begins with `data:` but contains no
comma, nothing is stripped: the entire string, `data:` header included, is
what reaches the base64 decoder. -/
theorem data_header_no_comma (s : String)
    (h1 : startsWithData s.data = true) (h2 : py_find ',' s.data = none) :
    strip_data_uri s = s ∧ b64decode (strip_data_uri s) = b64decode s := by
  have hs : strip_data_uri s = s := by
    unfold strip_data_uri strip_chars
    rw [h1, h2]
    rfl
  exact ⟨hs, by rw [hs]⟩

/-- Claim C10 witness: the comma-free string `data:nocomma`. -/
theorem data_header_no_comma_witness :
    strip_data_uri "data:nocomma" = "data:nocomma" :=
  (data_header_no_comma "data:nocomma" rfl (by decide)).1

/-- The three per-frame failure modes of the WebSocket text path, each paired
with the error frame the code sends for it: unparseable JSON, a string image
that fails base64 decoding, and an image field that is present but not a
string. -/
inductive WsErrorCase : WsIncoming → Json → Prop where
  | parseFail : WsErrorCase (.receiveText none) errMalformed
  | decodeFail (fields : List (String × Json)) (s : String)
      (himg : fields.lookup "image" = some (Json.str s))
      (hdec : b64decode (strip_data_uri s) = .error ()) :
      WsErrorCase (.receiveText (some (Json.obj fields))) errMalformed
  | imageNotString (fields : List (String × Json)) (j : Json)
      (himg : fields.lookup "image" = some j)
      (hns : ∀ s, j ≠ Json.str s) :
      WsErrorCase (.receiveText (some (Json.obj fields))) errInvalidFormat

/-- Claim C5: every failing text frame (JSON-parse failure, base64 decode
failure, or a present-but-non-string image field) makes the handler send
exactly its error frame, spawn nothing, and continue: the loop over any
remaining events proceeds with unchanged state, so a later valid message is
still processed. -/
theorem ws_error_continues (dt : DateTime) (ev : WsIncoming) (e : Json)
    (rest : List (DateTime × WsIncoming)) (h : WsErrorCase ev e) :
    ws_handle_event dt ev = .next [e] [] ∧
    ws_loop ((dt, ev) :: rest) = (e :: (ws_loop rest).1, (ws_loop rest).2) := by
  have hstep : ws_handle_event dt ev = .next [e] [] := by
    cases h with
    | parseFail => rfl
    | decodeFail fields s himg hdec =>
      show ws_handle_text dt (some (Json.obj fields)) = _
      rw [ws_handle_text_obj dt fields s himg, hdec]
    | imageNotString fields j himg hns =>
      show ws_handle_text dt (some (Json.obj fields)) = _
      simp only [ws_handle_text, himg]
      cases j with
      | str s => exact absurd rfl (hns s)
      | null => rfl
      | bool b => rfl
      | num n => rfl
      | arr elems => rfl
      | obj fs => rfl
  refine ⟨hstep, ?_⟩
  simp [ws_loop, hstep]

/-- Claim C5 witness: a non-string image frame draws the format error, and the
next (valid) message on the same connection is still acknowledged. -/
theorem ws_error_continues_witness :
    ws_loop [(⟨2025, 1, 2, 3, 4, 5, 0⟩, .receiveText (some (Json.obj [("image", Json.num 123)]))),
             (⟨2025, 1, 2, 3, 4, 5, 0⟩, .receiveText (some (Json.obj
                [("label", Json.str "a"), ("image", Json.str "YWJj")])))] =
      ([errInvalidFormat,
        Json.obj [("command", Json.obj [("action", Json.str "ACK"), ("labelReceived", Json.str "a")]),
                  ("commandSentAt", Json.str "2025-01-02T03:04:05+00:00")]],
       [BgTask.saveTask [97, 98, 99] (Json.str "a")]) := by
  have h := ws_error_continues ⟨2025, 1, 2, 3, 4, 5, 0⟩
    (.receiveText (some (Json.obj [("image", Json.num 123)]))) errInvalidFormat
    [(⟨2025, 1, 2, 3, 4, 5, 0⟩, .receiveText (some (Json.obj
        [("label", Json.str "a"), ("image", Json.str "YWJj")])))]
    (WsErrorCase.imageNotString [("image", Json.num 123)] (Json.num 123) rfl
      (fun s hcontra => Json.noConfusion hcontra))
  rw [h.2]
  rfl

/-- Claim C6: a binary frame is treated directly as the image bytes: the
handler replies with an ACK frame whose command has no `labelReceived` field,
and spawns the save task with no label. -/
theorem ws_binary_ack (dt : DateTime) (image_bytes : List Nat) :
    ws_handle_event dt (.receiveBytes image_bytes) =
      .next [Json.obj [("command", Json.obj [("action", Json.str "ACK")]),
                       ("commandSentAt", Json.str (current_iso_timestamp dt))]]
            [BgTask.saveTask image_bytes Json.null] ∧
    (make_control_command Json.null).lookup "labelReceived" = none :=
  ⟨rfl, rfl⟩

/-- Matches a leading pattern segment (digits written `D`, other characters
literal) and requires the remaining characters to equal `rest` exactly. -/
def matchesThen : List Char → List Char → List Char → Bool
  | [], rest, cs => rest == cs
  | p :: ps, rest, c :: cs => (if p = 'D' then c.isDigit else p == c) && matchesThen ps rest cs
  | _ :: _, _, [] => false

/-- Spec-side shape of a saved filename: a `YYYYMMDDTHHMMSSZ` timestamp, then
the label segment, then `.jpg`. -/
def savedNameOk (label : Option String) (name : String) : Bool :=
  matchesThen "DDDDDDDDTDDDDDDZ".data (label_suffix label ++ ".jpg".data) name.data

/-- Claim C7, counterexample: with storage enabled and the non-null label `""`
supplied, the underscore-label segment is nevertheless omitted — the saved
filename is identical to the no-label one — refuting "omitted exactly when
the label is absent". -/
theorem save_empty_label_counterexample :
    save_image { STORE_IMAGES := true } ⟨2025, 1, 2, 3, 4, 5, 0⟩ [0] (some "") =
      save_image { STORE_IMAGES := true } ⟨2025, 1, 2, 3, 4, 5, 0⟩ [0] none ∧
    save_image { STORE_IMAGES := true } ⟨2025, 1, 2, 3, 4, 5, 0⟩ [0] (some "") =
      [{ directory := RECEIVED_IMAGES_DIR, filename := "20250102T030405Z.jpg",
         contents := [0] }] := ⟨rfl, rfl⟩

/-- Claim C7 (amended): `save_image` is a complete no-op when the storage flag
is disabled; when enabled it performs exactly one write, of exactly the given
bytes, to `{YYYYMMDDTHHMMSSZ}[_{label}].jpg` under the fixed storage
directory, where the underscore-label segment is omitted exactly when the
label is absent or empty (Python falsy). It returns no error in either case. -/
theorem save_image_files (cfg : Config) (dt : DateTime) (image_bytes : List Nat)
    (label : Option String) :
    (cfg.STORE_IMAGES = false → save_image cfg dt image_bytes label = []) ∧
    (cfg.STORE_IMAGES = true →
      save_image cfg dt image_bytes label =
        [{ directory := RECEIVED_IMAGES_DIR,
           filename := String.mk (strftime_basic dt ++ label_suffix label ++ ".jpg".data),
           contents := image_bytes }] ∧
      savedNameOk label (String.mk (strftime_basic dt ++ label_suffix label ++ ".jpg".data)) = true) ∧
    (label_suffix label = [] ↔ label = none ∨ label = some "") := by
  refine ⟨fun hoff => by simp [save_image, hoff],
          fun hon => ⟨by simp [save_image, hon], ?_⟩, ?_⟩
  · unfold savedNameOk strftime_basic pad4 pad2
    simp [matchesThen]
  · cases label with
    | none => simp [label_suffix]
    | some l =>
      by_cases hl : l = ""
      · subst hl; simp [label_suffix]
      · simp [label_suffix, hl]

/-- Claim C7 witness: both branches at concrete arguments. -/
theorem save_image_files_witness :
    save_image { STORE_IMAGES := false } ⟨2025, 1, 2, 3, 4, 5, 0⟩ [7] (some "cam1") = [] ∧
    save_image { STORE_IMAGES := true } ⟨2025, 1, 2, 3, 4, 5, 0⟩ [7] (some "cam1") =
      [{ directory := RECEIVED_IMAGES_DIR, filename := "20250102T030405Z_cam1.jpg",
         contents := [7] }] :=
  ⟨(save_image_files { STORE_IMAGES := false } ⟨2025, 1, 2, 3, 4, 5, 0⟩ [7] (some "cam1")).1 rfl,
   ((save_image_files { STORE_IMAGES := true } ⟨2025, 1, 2, 3, 4, 5, 0⟩ [7] (some "cam1")).2.1 rfl).1⟩

theorem a2b_loop_filter (cs : List Char) :
    ∀ quadPos leftchar pads out,
      a2b_loop (cs.filter isB64OrPad) quadPos leftchar pads out =
        a2b_loop cs quadPos leftchar pads out := by
  induction cs with
  | nil => intro _ _ _ _; rfl
  | cons c cs ih =>
    intro quadPos leftchar pads out
    by_cases hc : isB64OrPad c = true
    · rw [List.filter_cons_of_pos hc]
      by_cases he : c = '='
      · subst he
        by_cases hq : 2 ≤ quadPos ∧ 4 ≤ quadPos + (pads + 1)
        · simp [a2b_loop, hq]
        · simp [a2b_loop, hq, ih]
      · have ht : ∃ v, b64table c = some v := by
          unfold isB64OrPad at hc
          rcases Bool.or_eq_true_iff.mp hc with h1 | h1
          · exact Option.isSome_iff_exists.mp h1
          · exact absurd (eq_of_beq h1) he
        obtain ⟨v, hv⟩ := ht
        simp only [a2b_loop, if_neg he, hv]
        rcases quadPos with _ | _ | _ | q <;> simp [ih]
    · have he : ¬ c = '=' := by
        intro hcontra
        subst hcontra
        exact hc (by decide)
      have ht : b64table c = none := by
        cases hb : b64table c with
        | none => rfl
        | some v =>
          exact absurd (by simp [isB64OrPad, hb]) hc
      rw [List.filter_cons_of_neg hc]
      conv_rhs => rw [a2b_loop]
      rw [if_neg he, ht]
      exact ih quadPos leftchar pads out

/-- Claim C9 counterexample: a non-ASCII image string takes the error branch
(HTTP 400) although its alphabet-filtered character sequence is valid (it is
empty and would decode to the empty byte sequence), so "discarded before
decoding / error only on invalid filtered count or padding" fails as stated. -/
theorem b64_nonascii_counterexample :
    (upload_base64 { label := none, image := "é" } ⟨2025, 1, 2, 3, 4, 5, 0⟩).response.status_code = 400 ∧
    a2b_base64 (List.filter isB64OrPad "é".data) = .ok [] :=
  ⟨rfl, rfl⟩

/-- Claim C9 (amended): restricted to ASCII image strings the decoder is
lenient exactly as claimed: characters outside the alphabet are discarded
before decoding, the empty string and all-invalid strings such as `@@@`
decode to the empty byte sequence and receive the 200/ACK response, and the
error branch is taken precisely when the alphabet-filtered sequence has an
invalid count or padding. A non-ASCII string instead always takes the error
branch. -/
theorem b64decode_lenient :
    (∀ cs : List Char, a2b_base64 (cs.filter isB64OrPad) = a2b_base64 cs) ∧
    b64decode "" = .ok [] ∧ b64decode "@@@" = .ok [] ∧
    (∀ dt : DateTime,
      (upload_base64 { label := none, image := "" } dt).response.status_code = 200 ∧
      (upload_base64 { label := none, image := "@@@" } dt).response.status_code = 200 ∧
      (upload_base64 { label := none, image := "@@@" } dt).response.content =
        Json.obj [("command", Json.obj (make_control_command Json.null)),
                  ("commandSentAt", Json.str (current_iso_timestamp dt))]) ∧
    (∀ s : String, s.data.all (fun c => c.toNat < 128) = true →
      (b64decode s = .error () ↔ a2b_base64 (s.data.filter isB64OrPad) = .error ())) := by
  refine ⟨fun cs => a2b_loop_filter cs 0 0 0 [], rfl, rfl, fun dt => ⟨rfl, rfl, rfl⟩, ?_⟩
  intro s hs
  have hb : b64decode s = a2b_base64 s.data := by
    unfold b64decode
    rw [hs]
    rfl
  rw [hb, show a2b_base64 (s.data.filter isB64OrPad) = a2b_base64 s.data from
    a2b_loop_filter s.data 0 0 0 []]

/-- Claim C9 witness: the ASCII string `YQ` (filtered count 2, invalid). -/
theorem b64decode_lenient_witness :
    b64decode "YQ" = .error () ↔ a2b_base64 ("YQ".data.filter isB64OrPad) = .error () :=
  b64decode_lenient.2.2.2.2 "YQ" rfl

end FastServer
